import Mathlib

/-!
Verification of the manifest mutation engine and build orchestration of the
java code agent (files java_code_agent.py and java_code_agent_openrouter.py).

The embedding models:
  * the in-memory XML element tree manipulated through xml.etree.ElementTree
    (an element has a tag, attributes, text and an ordered list of children;
    a tag parsed from a namespaced document carries the namespace URI wrapped
    in braces, exactly as ElementTree represents it);
  * JavaProjectManager.update_pom_dependencies, including the default pom
    bootstrap of the openrouter variant (the constant defaultPom below is the
    parsed form of the literal written by JavaProjectManager._create_default_pom);
  * the subprocess-facing operations compile_project and run_tests, over an
    explicit outcome of the subprocess.run call;
  * the build-then-test sequencing of the two main functions;
  * JavaProjectManager.save_java_file and CustomAssistantAgent.generate_reply.
-/

/-- An XML element as represented by xml.etree.ElementTree: a tag (which for
elements parsed from a namespaced document is the namespace URI in braces
followed by the local name), an attribute list, optional text, and an ordered
list of child elements. -/
inductive Elem where
  | node (tag : String) (attrs : List (String × String)) (text : Option String)
      (children : List Elem)

def Elem.tag : Elem → String
  | .node t _ _ _ => t

def Elem.attrs : Elem → List (String × String)
  | .node _ a _ _ => a

def Elem.text : Elem → Option String
  | .node _ _ x _ => x

def Elem.children : Elem → List Elem
  | .node _ _ _ cs => cs

/-- Replace the child list of an element, keeping tag, attributes and text. -/
def Elem.setChildren : Elem → List Elem → Elem
  | .node t a x _, cs => .node t a x cs

/-- ET.SubElement: append a new child at the end of the child list. -/
def Elem.appendChild (e : Elem) (c : Elem) : Elem :=
  e.setChildren (e.children ++ [c])

/-- The Maven POM namespace URI used by both source variants. -/
def pomNS : String := "http://maven.apache.org/POM/4.0.0"

/-- Qualify a local name with the POM namespace, in ElementTree brace form. -/
def q (s : String) : String := "\x7b" ++ pomNS ++ "\x7d" ++ s

/-- The tag searched for by root.find in update_pom_dependencies. -/
def depsTag : String := q "dependencies"

/-- A dependency declaration as passed to update_pom_dependencies. -/
structure Dep where
  groupId : String
  artifactId : String
  version : String

/-- The element built for one declaration inside the loop of
update_pom_dependencies: ET.SubElement(deps, "dependency") with three
SubElement children carrying the text fields.  Note the tags are the plain
local names, without the namespace, exactly as the source creates them. -/
def mkDepElem (d : Dep) : Elem :=
  .node "dependency" [] none
    [ .node "groupId" [] (some d.groupId) [],
      .node "artifactId" [] (some d.artifactId) [],
      .node "version" [] (some d.version) [] ]

/-- The loop of update_pom_dependencies: append one new dependency element to
the dependencies element for every declaration, in order. -/
def addDeps (e : Elem) (ds : List Dep) : Elem :=
  ds.foldl (fun acc d => acc.appendChild (mkDepElem d)) e

/-- The effect of root.find followed by in-place mutation on the child list of
the root: the first child whose tag is the namespaced dependencies tag has the
new dependency elements appended to it; if there is none, the function returns
none (the caller then appends a fresh unqualified dependencies element). -/
def updateChildren (ds : List Dep) : List Elem → Option (List Elem)
  | [] => none
  | c :: cs =>
    if c.tag == depsTag then some (addDeps c ds :: cs)
    else match updateChildren ds cs with
      | some cs' => some (c :: cs')
      | none => none

/-- The tree mutation performed by update_pom_dependencies on the parsed root:
find the namespaced dependencies section among the direct children and append
the new dependency elements to it; if absent, append a fresh dependencies
element (created with the plain tag "dependencies", without namespace) holding
the new entries. -/
def update_pom_root (root : Elem) (ds : List Dep) : Elem :=
  match updateChildren ds root.children with
  | some cs' => root.setChildren cs'
  | none => root.appendChild (addDeps (Elem.node "dependencies" [] none []) ds)

/-- Ambient session constants of java_code_agent_openrouter.py. -/
def CURRENT_UTC : String := "2025-04-10 06:41:25"

def CURRENT_USER : String := "xlisp"

/-- The parsed form of the default pom document written by
JavaProjectManager._create_default_pom: every element of the literal is inside
the POM namespace, the schemaLocation attribute is in the XMLSchema-instance
namespace, the dependencies section is empty, the properties carry the
compiler language-version pair and the provenance stamp, and the build section
holds the surefire and compiler plugins. -/
def defaultPom : Elem :=
  .node (q "project")
    [("\x7bhttp://www.w3.org/2001/XMLSchema-instance\x7dschemaLocation",
      "http://maven.apache.org/POM/4.0.0 http://maven.apache.org/xsd/maven-4.0.0.xsd")]
    none
  [ .node (q "modelVersion") [] (some "4.0.0") [],
    .node (q "groupId") [] (some "com.example") [],
    .node (q "artifactId") [] (some "java-autogen-project") [],
    .node (q "version") [] (some "1.0-SNAPSHOT") [],
    .node (q "properties") [] none
      [ .node (q "maven.compiler.source") [] (some "11") [],
        .node (q "maven.compiler.target") [] (some "11") [],
        .node (q "project.build.sourceEncoding") [] (some "UTF-8") [],
        .node (q "junit.jupiter.version") [] (some "5.9.2") [],
        .node (q "project.created.by") [] (some CURRENT_USER) [],
        .node (q "project.created.date") [] (some CURRENT_UTC) [] ],
    .node (q "dependencies") [] none [],
    .node (q "build") [] none
      [ .node (q "plugins") [] none
        [ .node (q "plugin") [] none
           [ .node (q "groupId") [] (some "org.apache.maven.plugins") [],
             .node (q "artifactId") [] (some "maven-surefire-plugin") [],
             .node (q "version") [] (some "3.0.0") [] ],
          .node (q "plugin") [] none
           [ .node (q "groupId") [] (some "org.apache.maven.plugins") [],
             .node (q "artifactId") [] (some "maven-compiler-plugin") [],
             .node (q "version") [] (some "3.10.1") [],
             .node (q "configuration") [] none
               [ .node (q "source") [] (some "$\x7bmaven.compiler.source\x7d") [],
                 .node (q "target") [] (some "$\x7bmaven.compiler.target\x7d") [] ] ] ] ] ]

/-- A filesystem operation performed while persisting the manifest. -/
inductive FileOp where
  | write (path : String) (doc : Elem)
  | rename (src dst : String)

def FileOp.isRename : FileOp → Bool
  | .write _ _ => false
  | .rename _ _ => true

/-- The manifest path of the project manager (self.pom_path). -/
def pomPath : String := "pom.xml"

/-- JavaProjectManager.update_pom_dependencies of the openrouter variant, over
the filesystem state at the pom path (none when no file exists; the content of
an existing well-formed file is carried as its parsed tree).  When the file is
missing, _create_default_pom writes the default document directly to the pom
path; then the file is parsed, mutated and written back in place by tree.write
(a plain open-and-write, with no temporary file and no rename in the source).
Returns the resulting document together with the trace of file operations. -/
def update_pom_dependencies (fs : Option Elem) (ds : List Dep) : Elem × List FileOp :=
  match fs with
  | none =>
      let doc := update_pom_root defaultPom ds
      (doc, [FileOp.write pomPath defaultPom, FileOp.write pomPath doc])
  | some d =>
      let doc := update_pom_root d ds
      (doc, [FileOp.write pomPath doc])

/-- ET element lookup among direct children (root.find with a tag). -/
def findChild (e : Elem) (t : String) : Option Elem :=
  e.children.find? (fun c => c.tag == t)

/-- True of a dependencies section tag whether or not it carries the
namespace (the source creates the fallback section without namespace). -/
def isDepsSection (e : Elem) : Bool :=
  e.tag == depsTag || e.tag == "dependencies"

/-- True of a dependency entry tag, qualified or not. -/
def isDepEntry (e : Elem) : Bool :=
  e.tag == q "dependency" || e.tag == "dependency"

/-- Whether a dependency entry carries the given identity key. -/
def hasKey (g a : String) (e : Elem) : Bool :=
  (e.children.any (fun c => (c.tag == q "groupId" || c.tag == "groupId")
      && c.text == some g))
  && (e.children.any (fun c => (c.tag == q "artifactId" || c.tag == "artifactId")
      && c.text == some a))

/-- Number of dependency entries with identity key (g, a) across all
dependencies sections of the manifest root. -/
def countDeps (root : Elem) (g a : String) : Nat :=
  ((root.children.filter isDepsSection).map
    (fun d => (d.children.filter (fun e => isDepEntry e && hasKey g a e)).length)).sum

/-- Whether the tag of an element carries the POM namespace. -/
def isQualifiedTag (t : String) : Bool :=
  List.isPrefixOf (q "").toList t.toList

mutual

/-- Every element of the tree has a POM-namespaced tag. -/
def allTagsQualified : Elem → Bool
  | .node t _ _ cs => isQualifiedTag t && allTagsQualifiedList cs

def allTagsQualifiedList : List Elem → Bool
  | [] => true
  | e :: es => allTagsQualified e && allTagsQualifiedList es

end

/-- The junit-jupiter-api declaration appearing in both main functions. -/
def junitDep : Dep :=
  ⟨"org.junit.jupiter", "junit-jupiter-api", "5.9.2"⟩

/-- Outcome of the subprocess.run call inside compile_project or run_tests:
either the process ran to completion with an exit status and fully buffered
output streams, or the launch itself raised (missing executable, permission
denial) with an exception message. -/
inductive SubprocessOutcome where
  | completed (returncode : Int) (stdout stderr : String)
  | launchFailure (msg : String)

/-- JavaProjectManager.compile_project: on completion it returns the pair
(returncode == 0, stdout); a raised launch failure is caught and returned as
(False, str(e)).  Totality of this function is the embedding of the fact that
no exception escapes to the caller. -/
def compile_project (o : SubprocessOutcome) : Bool × String :=
  match o with
  | .completed rc out _err => (rc == 0, out)
  | .launchFailure e => (false, e)

/-- JavaProjectManager.run_tests, identical to compile_project except for the
maven phase argument and log messages. -/
def run_tests (o : SubprocessOutcome) : Bool × String :=
  match o with
  | .completed rc out _err => (rc == 0, out)
  | .launchFailure e => (false, e)

/-- The compile/test sequencing of main in java_code_agent.py (lines 122 to
134): compile_project is run, its outcome printed, and run_tests is then run
unconditionally, whatever the compile result was.  The toolchain argument
maps a phase name to the outcome of its subprocess; the returned trace lists
the phases actually handed to the toolchain. -/
def main_build_then_test (tc : String → SubprocessOutcome) :
    ((Bool × String) × Option (Bool × String)) × List String :=
  let c := compile_project (tc "compile")
  let t := run_tests (tc "test")
  ((c, some t), ["compile", "test"])

/-- The compile/test sequencing of main in java_code_agent_openrouter.py
(lines 308 to 319): run_tests is invoked only when compile_project reported
success; otherwise only the compile result is produced and the test slot is
absent. -/
def main_build_then_test_openrouter (tc : String → SubprocessOutcome) :
    ((Bool × String) × Option (Bool × String)) × List String :=
  let c := compile_project (tc "compile")
  if c.1 then ((c, some (run_tests (tc "test"))), ["compile", "test"])
  else ((c, none), ["compile"])

/-- A toolchain whose compile phase exits with status 1. -/
def failingToolchain : String → SubprocessOutcome :=
  fun _ => SubprocessOutcome.completed 1 "" ""

/-- The provenance header prepended by JavaProjectManager.save_java_file. -/
def javaFileHeader : String :=
  "/*\n * Generated by JavaCodeGenerator\n * Created by: " ++ CURRENT_USER
    ++ "\n * Created at: " ++ CURRENT_UTC ++ "\n */\n\n"

/-- The directory roots of the project workspace (self.src_dir and
self.test_dir). -/
structure Workspace where
  src_dir : String
  test_dir : String

/-- JavaProjectManager.save_java_file: the target directory is the test root
when is_test is true and the source root otherwise, and the written content
is the provenance header followed by the original content.  The result is the
(path, content) pair actually written. -/
def save_java_file (w : Workspace) (filename content : String)
    (is_test : Bool) : String × String :=
  let target_dir := if is_test then w.test_dir else w.src_dir
  let file_path := target_dir ++ "/" ++ filename
  (file_path, javaFileHeader ++ content)

/-- An incoming chat message as handled by generate_reply: a dict with a
content entry (and optional role), a bare string, or anything else (skipped
by the formatting loop). -/
inductive InMsg where
  | dict (role : Option String) (content : String)
  | str (content : String)
  | other

/-- The message formatting loop of CustomAssistantAgent.generate_reply. -/
def format_messages (ms : List InMsg) : List (String × String) :=
  ms.foldr
    (fun m acc =>
      match m with
      | .dict r c => (r.getD "user", c) :: acc
      | .str c => ("user", c) :: acc
      | .other => acc)
    []

/-- The full request message list: the context system message inserted at
position 0 followed by the formatted messages. -/
def formattedRequest (ms : List InMsg) : List (String × String) :=
  ("system", "Current context - User: " ++ CURRENT_USER ++ ", DateTime: "
    ++ CURRENT_UTC) :: format_messages ms

/-- Outcome of the OpenRouter HTTP exchange: either requests.post or
raise_for_status raised (connection error or non-2xx status), or a JSON body
was obtained whose choices list carries, per choice, the message content when
present (none models a choice whose message or content key is missing, which
makes the extraction raise inside the try block). -/
inductive ApiOutcome where
  | httpError (msg : String)
  | body (choices : List (Option String))

/-- The fixed string returned by the except branch of generate_reply. -/
def apologyReply : String :=
  "I apologize, but I encountered an error while processing your request. Please try again."

/-- CustomAssistantAgent.generate_reply: the formatted request is sent, and
any raised error (HTTP failure, empty or missing choices, malformed choice)
is caught by the surrounding except branch, which returns the apology string.
Totality of this function is the embedding of the fact that no exception
propagates to the caller. -/
def generate_reply (api : List (String × String) → ApiOutcome)
    (ms : List InMsg) : String :=
  match api (formattedRequest ms) with
  | .httpError _ => apologyReply
  | .body [] => apologyReply
  | .body (none :: _) => apologyReply
  | .body (some c :: _) => c

/-- Whether the exchange outcome takes the except branch of generate_reply. -/
def isFailureOutcome : ApiOutcome → Bool
  | .httpError _ => true
  | .body [] => true
  | .body (none :: _) => true
  | .body (some _ :: _) => false

/-- ManifestStore load: ET.parse of the file at the manifest path.  A missing
file (or malformed content) raises; a well-formed document yields its tree.
The filesystem state carries well-formed content as its parsed tree, so load
succeeds exactly when the file exists. -/
def loadPom : Option Elem → Except String Elem
  | none => Except.error "ParseFailure"
  | some d => Except.ok d

/-- Chained child lookup along a path of tags. -/
def findPath : Elem → List String → Option Elem
  | e, [] => some e
  | e, t :: ts =>
    match findChild e t with
    | some c => findPath c ts
    | none => none

/-- The text of the element reached by a path of tags. -/
def textAt (e : Elem) (p : List String) : Option String :=
  (findPath e p).bind Elem.text

/-- Whether a file operation is a plain write to the manifest path itself. -/
def isDirectManifestWrite : FileOp → Bool
  | .write p _ => p == pomPath
  | .rename _ _ => false

theorem Elem.tag_setChildren (e : Elem) (cs : List Elem) :
    (e.setChildren cs).tag = e.tag := by
  cases e
  rfl

theorem Elem.attrs_setChildren (e : Elem) (cs : List Elem) :
    (e.setChildren cs).attrs = e.attrs := by
  cases e
  rfl

theorem Elem.children_setChildren (e : Elem) (cs : List Elem) :
    (e.setChildren cs).children = cs := by
  cases e
  rfl

theorem Elem.tag_appendChild (e c : Elem) : (e.appendChild c).tag = e.tag := by
  cases e
  rfl

theorem Elem.attrs_appendChild (e c : Elem) : (e.appendChild c).attrs = e.attrs := by
  cases e
  rfl

theorem Elem.children_appendChild (e c : Elem) :
    (e.appendChild c).children = e.children ++ [c] := by
  cases e
  rfl

theorem addDeps_tag : ∀ (ds : List Dep) (e : Elem), (addDeps e ds).tag = e.tag
  | [], _ => rfl
  | d :: ds, e => by
    show (addDeps (e.appendChild (mkDepElem d)) ds).tag = e.tag
    rw [addDeps_tag ds, Elem.tag_appendChild]

theorem addDeps_attrs : ∀ (ds : List Dep) (e : Elem), (addDeps e ds).attrs = e.attrs
  | [], _ => rfl
  | d :: ds, e => by
    show (addDeps (e.appendChild (mkDepElem d)) ds).attrs = e.attrs
    rw [addDeps_attrs ds, Elem.attrs_appendChild]

/-- Appending declarations only extends the child list of the dependencies
element: the previous entries stay, in order, as a prefix. -/
theorem addDeps_children : ∀ (ds : List Dep) (e : Elem),
    (addDeps e ds).children = e.children ++ ds.map mkDepElem
  | [], e => by simp [addDeps]
  | d :: ds, e => by
    show (addDeps (e.appendChild (mkDepElem d)) ds).children = _
    rw [addDeps_children ds, Elem.children_appendChild]
    simp

theorem updateChildren_eq_none (ds : List Dep) :
    ∀ cs : List Elem, updateChildren ds cs = none →
      cs.find? (fun c => c.tag == depsTag) = none := by
  intro cs
  induction cs with
  | nil => intro _; rfl
  | cons c0 cs ih =>
    intro h
    simp only [updateChildren] at h
    cases hc0 : (c0.tag == depsTag) with
    | true => simp [hc0] at h
    | false =>
      simp only [hc0, Bool.false_eq_true, if_false] at h
      rw [List.find?]
      rw [hc0]
      cases hu : updateChildren ds cs with
      | some cs2 => rw [hu] at h; simp at h
      | none => exact ih hu

theorem updateChildren_mem (ds : List Dep) :
    ∀ (cs cs' : List Elem), updateChildren ds cs = some cs' →
      ∀ c ∈ cs, c.tag ≠ depsTag → c ∈ cs' := by
  intro cs
  induction cs with
  | nil => intro cs' h; simp [updateChildren] at h
  | cons c0 cs ih =>
    intro cs' h c hc hne
    simp only [updateChildren] at h
    cases hc0 : (c0.tag == depsTag) with
    | true =>
      simp only [hc0, if_true, Option.some.injEq] at h
      subst h
      rcases List.mem_cons.mp hc with rfl | hmem
      · exact absurd (eq_of_beq hc0) hne
      · exact List.mem_cons_of_mem _ hmem
    | false =>
      simp only [hc0, Bool.false_eq_true, if_false] at h
      cases hu : updateChildren ds cs with
      | none => rw [hu] at h; simp at h
      | some cs2 =>
        rw [hu] at h
        simp only [Option.some.injEq] at h
        subst h
        rcases List.mem_cons.mp hc with rfl | hmem
        · exact List.mem_cons_self _ _
        · exact List.mem_cons_of_mem _ (ih cs2 hu c hmem hne)

theorem updateChildren_find (ds : List Dep) :
    ∀ (cs cs' : List Elem), updateChildren ds cs = some cs' →
      ∃ d, cs.find? (fun c => c.tag == depsTag) = some d ∧
        cs'.find? (fun c => c.tag == depsTag) = some (addDeps d ds) := by
  intro cs
  induction cs with
  | nil => intro cs' h; simp [updateChildren] at h
  | cons c0 cs ih =>
    intro cs' h
    simp only [updateChildren] at h
    cases hc0 : (c0.tag == depsTag) with
    | true =>
      simp only [hc0, if_true, Option.some.injEq] at h
      subst h
      refine ⟨c0, ?_, ?_⟩
      · rw [List.find?]
        rw [hc0]
      · rw [List.find?]
        have : ((addDeps c0 ds).tag == depsTag) = true := by
          rw [addDeps_tag]
          exact hc0
        rw [this]
    | false =>
      simp only [hc0, Bool.false_eq_true, if_false] at h
      cases hu : updateChildren ds cs with
      | none => rw [hu] at h; simp at h
      | some cs2 =>
        rw [hu] at h
        simp only [Option.some.injEq] at h
        subst h
        obtain ⟨d, hfind, hfind'⟩ := ih cs2 hu
        refine ⟨d, ?_, ?_⟩
        · rw [List.find?]
          rw [hc0]
          exact hfind
        · rw [List.find?]
          rw [hc0]
          exact hfind'

/-- Claim C1: the specification requires update_pom_dependencies to be an
idempotent upsert keyed on (groupId, artifactId).  The source instead appends
a fresh dependency element unconditionally on every call: applying the same
single declaration twice to the default manifest leaves two entries for the
key (org.junit.jupiter, junit-jupiter-api), where the claim requires exactly
one. -/
theorem upsert_twice_leaves_duplicate_entries :
    countDeps (update_pom_dependencies
        (some (update_pom_dependencies (some defaultPom) [junitDep]).1)
        [junitDep]).1
      "org.junit.jupiter" "junit-jupiter-api" = 2 := by
  rfl

/-- Claim C2, counterexample: in main of java_code_agent.py the test phase is
run unconditionally.  With a toolchain whose compile phase exits with status
1, the compile result is failed, yet the test phase is still handed to the
toolchain and a test result is produced, contradicting the claimed hard
short-circuit. -/
theorem failed_build_still_runs_tests :
    (compile_project (failingToolchain "compile")).1 = false
  ∧ (main_build_then_test failingToolchain).2 = ["compile", "test"]
  ∧ (main_build_then_test failingToolchain).1.2.isSome = true := by
  exact ⟨rfl, rfl, rfl⟩

/-- Claim C2, amended: in the openrouter variant the short-circuit does hold.
Whenever the compile phase reports failure, main returns only the build
result, the test slot is absent, and the test phase is never handed to the
toolchain (the trace of spawned phases is just the compile phase). -/
theorem openrouter_build_short_circuit (tc : String → SubprocessOutcome)
    (h : (compile_project (tc "compile")).1 = false) :
    main_build_then_test_openrouter tc
      = ((compile_project (tc "compile"), none), ["compile"]) := by
  simp [main_build_then_test_openrouter, h]

/-- Witness for the amended claim C2 at a concrete failing toolchain. -/
theorem openrouter_build_short_circuit_holds :
    main_build_then_test_openrouter failingToolchain
      = ((compile_project (failingToolchain "compile"), none), ["compile"]) :=
  openrouter_build_short_circuit failingToolchain rfl

/-- Claim C3, counterexample: the source persists the manifest through
tree.write on the pom path, a plain in-place write.  The trace of file
operations for a concrete update contains no rename at all and consists of a
single direct write to the manifest path, so the save is not performed as a
write to a temporary location followed by a rename. -/
theorem save_trace_has_no_rename :
    (update_pom_dependencies (some defaultPom) [junitDep]).2.any FileOp.isRename
      = false
  ∧ (update_pom_dependencies (some defaultPom) [junitDep]).2
      = [FileOp.write pomPath (update_pom_root defaultPom [junitDep])] := by
  exact ⟨rfl, rfl⟩

/-- Claim C3, amended: every file operation performed while persisting the
manifest (including the default bootstrap write) is a direct write to the
manifest path itself; no temporary location and no rename is ever used, so an
interrupted save can leave a partially written manifest. -/
theorem save_writes_directly_in_place (fs : Option Elem) (ds : List Dep) :
    (update_pom_dependencies fs ds).2.all isDirectManifestWrite = true := by
  cases fs with
  | none => rfl
  | some d => rfl

/-- Claim C4, counterexample: the default manifest has every element inside
the POM namespace, but after one dependency update the tree no longer does:
the elements created by the mutation carry plain unqualified tags, so not
every element is serialized under the declared namespace. -/
theorem upsert_adds_elements_outside_namespace :
    allTagsQualified defaultPom = true
  ∧ allTagsQualified (update_pom_root defaultPom [junitDep]) = false := by
  constructor
  · simp [allTagsQualified, allTagsQualifiedList, defaultPom]
    decide
  · simp [allTagsQualified, allTagsQualifiedList, update_pom_root, updateChildren,
      addDeps, defaultPom, junitDep, mkDepElem, Elem.setChildren, Elem.appendChild,
      Elem.children, Elem.tag]
    decide

/-- Claim C4, amended: the mutation never changes the root tag (which carries
the namespace identifier) or the root attributes; every section other than
the dependencies section is still present unchanged after the rewrite; and
the dependencies section keeps its previous entries as a prefix, gaining only
the appended declaration elements.  What fails of the original claim is only
that the appended elements are created outside the declared namespace. -/
theorem upsert_preserves_namespace_and_sections (root : Elem) (ds : List Dep) :
    (update_pom_root root ds).tag = root.tag
  ∧ (update_pom_root root ds).attrs = root.attrs
  ∧ (∀ c ∈ root.children, c.tag ≠ depsTag → c ∈ (update_pom_root root ds).children)
  ∧ (∀ d, root.children.find? (fun c => c.tag == depsTag) = some d →
      (update_pom_root root ds).children.find? (fun c => c.tag == depsTag)
          = some (addDeps d ds)
        ∧ (addDeps d ds).children = d.children ++ ds.map mkDepElem) := by
  unfold update_pom_root
  cases hu : updateChildren ds root.children with
  | some cs' =>
    refine ⟨Elem.tag_setChildren _ _, Elem.attrs_setChildren _ _, ?_, ?_⟩
    · intro c hc hne
      rw [Elem.children_setChildren]
      exact updateChildren_mem ds root.children cs' hu c hc hne
    · intro d hd
      obtain ⟨d0, hfind, hfind'⟩ := updateChildren_find ds root.children cs' hu
      rw [hd] at hfind
      cases hfind
      rw [Elem.children_setChildren]
      exact ⟨hfind', addDeps_children ds d⟩
  | none =>
    refine ⟨Elem.tag_appendChild _ _, Elem.attrs_appendChild _ _, ?_, ?_⟩
    · intro c hc _
      rw [Elem.children_appendChild]
      exact List.mem_append_left _ hc
    · intro d hd
      rw [updateChildren_eq_none ds root.children hu] at hd
      cases hd

/-- Witness for the amended claim C4: on the default manifest updated with
the junit declaration, the modelVersion section is still present and the
dependencies section was extended in place. -/
theorem upsert_preserves_namespace_and_sections_holds :
    Elem.node (q "modelVersion") [] (some "4.0.0") []
      ∈ (update_pom_root defaultPom [junitDep]).children
  ∧ (update_pom_root defaultPom [junitDep]).children.find?
        (fun c => c.tag == depsTag)
      = some (addDeps (Elem.node depsTag [] none []) [junitDep]) := by
  refine ⟨?_, ?_⟩
  · exact (upsert_preserves_namespace_and_sections defaultPom [junitDep]).2.2.1
      (Elem.node (q "modelVersion") [] (some "4.0.0") [])
      (List.mem_cons_self _ _) (by decide)
  · exact ((upsert_preserves_namespace_and_sections defaultPom [junitDep]).2.2.2
      (Elem.node depsTag [] none []) rfl).1

/-- Claim C5: when no manifest exists, update_pom_dependencies first persists
the default document; that document has the namespaced project root, an empty
namespaced dependencies section, the compiler language-version properties,
the provenance stamp with creator identity and creation time, the surefire
and compiler plugins under build/plugins, and it loads back successfully. -/
theorem default_pom_bootstrap (ds : List Dep) :
    (update_pom_dependencies none ds).2.head?
        = some (FileOp.write pomPath defaultPom)
  ∧ defaultPom.tag = q "project"
  ∧ findChild defaultPom depsTag = some (Elem.node depsTag [] none [])
  ∧ textAt defaultPom [q "properties", q "maven.compiler.source"] = some "11"
  ∧ textAt defaultPom [q "properties", q "maven.compiler.target"] = some "11"
  ∧ textAt defaultPom [q "properties", q "project.created.by"] = some CURRENT_USER
  ∧ textAt defaultPom [q "properties", q "project.created.date"] = some CURRENT_UTC
  ∧ ((findPath defaultPom [q "build", q "plugins"]).map
        (fun p => p.children.map (fun pl => textAt pl [q "artifactId"])))
      = some [some "maven-surefire-plugin", some "maven-compiler-plugin"]
  ∧ loadPom (some defaultPom) = Except.ok defaultPom := by
  exact ⟨rfl, rfl, rfl, rfl, rfl, rfl, rfl, rfl, rfl⟩

/-- Claim C6: a failure to launch the build subprocess is caught and returned
as a failed result whose output text is the failure description; neither
phase lets the exception reach the caller. -/
theorem launch_failure_returned_not_raised (e : String) :
    compile_project (SubprocessOutcome.launchFailure e) = (false, e)
  ∧ run_tests (SubprocessOutcome.launchFailure e) = (false, e) := by
  exact ⟨rfl, rfl⟩

/-- Claim C7, counterexample: the value returned to the caller does not
contain the standard error stream.  Two completed invocations that differ
only in their stderr produce identical results, so the result cannot carry
the stderr text. -/
theorem result_does_not_determine_stderr :
    compile_project (SubprocessOutcome.completed 0 "out" "errA")
      = compile_project (SubprocessOutcome.completed 0 "out" "errB")
  ∧ run_tests (SubprocessOutcome.completed 0 "out" "errA")
      = run_tests (SubprocessOutcome.completed 0 "out" "errB")
  ∧ ("errA" : String) ≠ "errB" := by
  exact ⟨rfl, rfl, by decide⟩

/-- Claim C7, amended: the returned result carries the success classification
together with the full standard output, and nothing else: it is independent
of the standard error, which is captured but only logged, never returned. -/
theorem result_carries_full_stdout_only (rc : Int) (out err err2 : String) :
    compile_project (SubprocessOutcome.completed rc out err) = ((rc == 0), out)
  ∧ compile_project (SubprocessOutcome.completed rc out err)
      = compile_project (SubprocessOutcome.completed rc out err2)
  ∧ run_tests (SubprocessOutcome.completed rc out err) = ((rc == 0), out) := by
  exact ⟨rfl, rfl, rfl⟩

/-- Claim C8: for an invocation that runs to completion, the succeeded flag
of either phase is true exactly when the subprocess exit status is zero. -/
theorem succeeded_iff_exit_status_zero (rc : Int) (out err : String) :
    ((compile_project (SubprocessOutcome.completed rc out err)).1 = true ↔ rc = 0)
  ∧ ((run_tests (SubprocessOutcome.completed rc out err)).1 = true ↔ rc = 0) := by
  constructor
  · simp [compile_project]
  · simp [run_tests]

/-- Witness for claim C8 at exit status zero. -/
theorem succeeded_iff_exit_status_zero_holds :
    (compile_project (SubprocessOutcome.completed 0 "o" "e")).1 = true :=
  (succeeded_iff_exit_status_zero 0 "o" "e").1.mpr rfl

/-- Claim C9: save_java_file writes under the test root exactly when is_test
is true and under the source root otherwise, and the written content is the
provenance header followed by the original content, the header carrying the
creator identity and the creation timestamp. -/
theorem artifact_written_under_correct_root (w : Workspace)
    (filename content : String) :
    save_java_file w filename content true
      = (w.test_dir ++ "/" ++ filename, javaFileHeader ++ content)
  ∧ save_java_file w filename content false
      = (w.src_dir ++ "/" ++ filename, javaFileHeader ++ content)
  ∧ javaFileHeader
      = "/*\n * Generated by JavaCodeGenerator\n * Created by: " ++ CURRENT_USER
          ++ "\n * Created at: " ++ CURRENT_UTC ++ "\n */\n\n" := by
  exact ⟨rfl, rfl, rfl⟩

/-- Claim C10: whenever the OpenRouter exchange fails (HTTP error, non-2xx
status, empty or malformed choices), generate_reply returns the fixed apology
string; totality of the embedded function reflects that the surrounding
except branch lets no exception propagate. -/
theorem reply_failure_yields_apology (api : List (String × String) → ApiOutcome)
    (ms : List InMsg) (h : isFailureOutcome (api (formattedRequest ms)) = true) :
    generate_reply api ms = apologyReply := by
  unfold generate_reply
  cases ho : api (formattedRequest ms) with
  | httpError m => rfl
  | body cs =>
    cases cs with
    | nil => rfl
    | cons c rest =>
      cases c with
      | none => rfl
      | some s =>
        rw [ho] at h
        simp [isFailureOutcome] at h

/-- Witness for claim C10 at a concrete failing exchange. -/
theorem reply_failure_yields_apology_holds :
    generate_reply (fun _ => ApiOutcome.httpError "connection error") []
      = apologyReply :=
  reply_failure_yields_apology (fun _ => ApiOutcome.httpError "connection error")
    [] rfl
